import Mathlib

/-!
Verification development for the flecs-chipmunk2d bridge.

The repository wraps chipmunk2d foreign handles (cpSpace, cpBody, cpShape)
as move-only flecs components, synchronizes component attach/detach events
with space membership, and routes collision callbacks back to flecs
entities through the cpBody user-data slot.

The repository contains several redundant variants of the same pattern:
- simple_struct_impl.cpp (namespace SimpleStruct below)
- unique_ptr_impl.cpp (namespace UniquePtr below)
- two earlier simple-struct variants kept in the repository
  (namespaces V1 and V2 below, first and second variant respectively)

Raw foreign pointers are modelled as Option Nat, with none standing for
NULL and some h for a distinct non-null handle value.  A fatal C assert
failure is a distinguished outcome of running a piece of code, modelled
by the CRes result type.  Operations that call a release function
(cpSpaceFree, cpBodyFree, cpShapeFree) additionally report the list of
handles they released, so that leaks and double frees are visible.
-/

/-- Outcome of running a piece of C++ code that contains assert calls:
either the code completes normally with a value, or a fatal assertion
violation aborts the process. -/
inductive CRes (α : Type) where
| ok : α → CRes α
| assertViolation : CRes α
deriving DecidableEq, Repr

/-- The part of the foreign engine state that the wrapper assertions
consult: whether cpBodyGetSpace and cpShapeGetSpace return a non-null
space for a given handle, i.e. whether the handle is currently a member
of a space. -/
structure SpaceEnv where
  bodyInSpace : Nat → Bool
  shapeInSpace : Nat → Bool

/-- Environment in which every handle is still a member of the space. -/
def envAllMembers : SpaceEnv := ⟨fun _ => true, fun _ => true⟩

/-- Environment in which no handle is a member of any space. -/
def envNoMembers : SpaceEnv := ⟨fun _ => false, fun _ => false⟩

namespace SimpleStruct

/-- Wrapper around cpSpace from simple_struct_impl.cpp: a single raw
pointer field. -/
structure Space where
  ptr : Option Nat
deriving DecidableEq, Repr

/-- Wrapper around cpBody from simple_struct_impl.cpp. -/
structure Body where
  ptr : Option Nat
deriving DecidableEq, Repr

/-- Wrapper around cpShape from simple_struct_impl.cpp. -/
structure Shape where
  ptr : Option Nat
deriving DecidableEq, Repr

/-- Default constructor Body(): stores a null pointer, the empty state
needed so the component store can allocate storage first. -/
def Body.mk0 : Body := ⟨none⟩

/-- Constructor Body(cpBody p): stores the raw pointer unchecked (the
source only logs it; there is no null check and no assert). -/
def Body.fromRaw (p : Option Nat) : Body := ⟨p⟩

/-- Destructor of Body: if the pointer is non-null, assert that the body
is not a member of a space (cpBodyGetSpace returns null) and then free
it with cpBodyFree.  Returns the handles released. -/
def Body.dtor (env : SpaceEnv) (b : Body) : CRes (List Nat) :=
  match b.ptr with
  | none => .ok []
  | some h => if env.bodyInSpace h then .assertViolation else .ok [h]

/-- Body of Body move assignment when this and other are distinct
objects: if the destination already holds a pointer, assert it is not a
space member and free it, then take the pointer from the source and null
the source.  Result is (new destination, new source, handles freed). -/
def Body.moveAssignBody (env : SpaceEnv) (dst src : Body) :
    CRes (Body × Body × List Nat) :=
  match dst.ptr with
  | none => .ok (⟨src.ptr⟩, ⟨none⟩, [])
  | some h =>
    if env.bodyInSpace h then .assertViolation
    else .ok (⟨src.ptr⟩, ⟨none⟩, [h])

/-- Move constructor Body(Body other): initializes ptr to null, then
runs move assignment from other (this and other never alias here). -/
def Body.moveCtor (env : SpaceEnv) (src : Body) :
    CRes (Body × Body × List Nat) :=
  Body.moveAssignBody env ⟨none⟩ src

/-- Move assignment on a heap of Body objects, addressing the
destination and the source by index so that the source guard
(this equals the address of other) is represented faithfully: when the
two indices coincide the operator body is skipped entirely. -/
def Body.opMoveAssign (env : SpaceEnv) (heap : Nat → Body) (i j : Nat) :
    CRes ((Nat → Body) × List Nat) :=
  if i = j then .ok (heap, [])
  else
    match Body.moveAssignBody env (heap i) (heap j) with
    | .assertViolation => .assertViolation
    | .ok (d, s, freed) =>
      .ok (Function.update (Function.update heap i d) j s, freed)

/-- Implicit conversion operator to cpBody pointer: asserts that the
stored pointer is non-null and returns it. -/
def Body.toRaw (b : Body) : CRes Nat :=
  match b.ptr with
  | none => .assertViolation
  | some h => .ok h

/-- Default constructor Shape(). -/
def Shape.mk0 : Shape := ⟨none⟩

/-- Constructor Shape(cpShape p): stores the raw pointer unchecked. -/
def Shape.fromRaw (p : Option Nat) : Shape := ⟨p⟩

/-- Destructor of Shape: mirror of the Body destructor, with
cpShapeGetSpace and cpShapeFree. -/
def Shape.dtor (env : SpaceEnv) (s : Shape) : CRes (List Nat) :=
  match s.ptr with
  | none => .ok []
  | some h => if env.shapeInSpace h then .assertViolation else .ok [h]

/-- Body of Shape move assignment when this and other are distinct. -/
def Shape.moveAssignBody (env : SpaceEnv) (dst src : Shape) :
    CRes (Shape × Shape × List Nat) :=
  match dst.ptr with
  | none => .ok (⟨src.ptr⟩, ⟨none⟩, [])
  | some h =>
    if env.shapeInSpace h then .assertViolation
    else .ok (⟨src.ptr⟩, ⟨none⟩, [h])

/-- Move constructor Shape(Shape other). -/
def Shape.moveCtor (env : SpaceEnv) (src : Shape) :
    CRes (Shape × Shape × List Nat) :=
  Shape.moveAssignBody env ⟨none⟩ src

/-- Move assignment on a heap of Shape objects with the aliasing guard. -/
def Shape.opMoveAssign (env : SpaceEnv) (heap : Nat → Shape) (i j : Nat) :
    CRes ((Nat → Shape) × List Nat) :=
  if i = j then .ok (heap, [])
  else
    match Shape.moveAssignBody env (heap i) (heap j) with
    | .assertViolation => .assertViolation
    | .ok (d, s, freed) =>
      .ok (Function.update (Function.update heap i d) j s, freed)

/-- Implicit conversion operator to cpShape pointer. -/
def Shape.toRaw (s : Shape) : CRes Nat :=
  match s.ptr with
  | none => .assertViolation
  | some h => .ok h

/-- Destructor of Space: frees a non-null pointer with cpSpaceFree.
The source has no space-membership assert here. -/
def Space.dtor (s : Space) : List Nat :=
  match s.ptr with
  | none => []
  | some h => [h]

/-- Body of Space move assignment when this and other are distinct: the
source asserts that the destination pointer is null (it never releases
the old pointer), then takes the pointer from the source. -/
def Space.moveAssignBody (dst src : Space) : CRes (Space × Space) :=
  match dst.ptr with
  | none => .ok (⟨src.ptr⟩, ⟨none⟩)
  | some _ => .assertViolation

/-- Move assignment on a heap of Space objects with the aliasing guard. -/
def Space.opMoveAssign (heap : Nat → Space) (i j : Nat) :
    CRes (Nat → Space) :=
  if i = j then .ok heap
  else
    match Space.moveAssignBody (heap i) (heap j) with
    | .assertViolation => .assertViolation
    | .ok (d, s) => .ok (Function.update (Function.update heap i d) j s)

/-- Implicit conversion operator to cpSpace pointer. -/
def Space.toRaw (s : Space) : CRes Nat :=
  match s.ptr with
  | none => .assertViolation
  | some h => .ok h

/-- The chipmunk2d module constructor checks the result of cpSpaceNew
with assert(space != nullptr) before wrapping it. -/
def moduleSpaceInit (alloc : Option Nat) : CRes Nat :=
  match alloc with
  | none => .assertViolation
  | some h => .ok h

end SimpleStruct

namespace UniquePtr

/-- Wrapper around cpShape from unique_ptr_impl.cpp; the source is a
copy of the simple-struct Shape. -/
structure Shape where
  ptr : Option Nat
deriving DecidableEq, Repr

/-- Destructor of the unique_ptr variant Shape: asserts the shape is not
a space member before freeing, exactly as in the simple-struct file. -/
def Shape.dtor (env : SpaceEnv) (s : Shape) : CRes (List Nat) :=
  match s.ptr with
  | none => .ok []
  | some h => if env.shapeInSpace h then .assertViolation else .ok [h]

/-- BodyDeleter from unique_ptr_impl.cpp: if the pointer is non-null it
calls cpBodyFree directly.  There is no cpBodyGetSpace assertion in this
deleter, so the space membership state is never consulted; the
environment parameter is present to make that visible in the type. -/
def bodyDeleter (_e : SpaceEnv) (p : Option Nat) : CRes (List Nat) :=
  match p with
  | none => .ok []
  | some h => .ok [h]

/-- SpaceDeleter from unique_ptr_impl.cpp: frees a non-null space. -/
def spaceDeleter (p : Option Nat) : List Nat :=
  match p with
  | none => []
  | some h => [h]

/-- The unique_ptr module constructor also checks cpSpaceNew with an
assert before emplacing the Space singleton. -/
def moduleSpaceInit (alloc : Option Nat) : CRes Nat :=
  match alloc with
  | none => .assertViolation
  | some h => .ok h

end UniquePtr

namespace V1

/-- Wrapper around cpBody from the first earlier simple-struct variant
kept in the repository (part_003, first file). -/
structure Body where
  ptr : Option Nat
deriving DecidableEq, Repr

/-- Destructor of the first-variant Body: asserts the body is not a
space member, then frees. -/
def Body.dtor (env : SpaceEnv) (b : Body) : CRes (List Nat) :=
  match b.ptr with
  | none => .ok []
  | some h => if env.bodyInSpace h then .assertViolation else .ok [h]

/-- Body of the first-variant Body move assignment when this and other
are distinct: the source overwrites the destination pointer with the
pointer from the source and nulls the source.  The old destination
pointer is neither freed nor checked, so the freed list is always empty
and no assertion can fire (the return type is a plain value). -/
def Body.moveAssignBody (_dst src : Body) : Body × Body × List Nat :=
  (⟨src.ptr⟩, ⟨none⟩, [])

/-- Implicit conversion operator of the first variant: returns the
stored pointer with no assert, including when it is null. -/
def Body.toRaw (b : Body) : Option Nat := b.ptr

/-- Wrapper around cpShape from the first earlier simple-struct variant
kept in the repository (part_003, first file). -/
structure Shape where
  ptr : Option Nat
deriving DecidableEq, Repr

/-- Destructor of the first-variant Shape: asserts the shape is not a
space member (cpShapeGetSpace returns null), then frees it with
cpShapeFree. -/
def Shape.dtor (env : SpaceEnv) (s : Shape) : CRes (List Nat) :=
  match s.ptr with
  | none => .ok []
  | some h => if env.shapeInSpace h then .assertViolation else .ok [h]

end V1

namespace V2

/-- Wrapper around cpBody from the second earlier simple-struct variant
kept in the repository (part_003, second file). -/
structure Body where
  ptr : Option Nat
deriving DecidableEq, Repr

/-- Destructor of the second-variant Body: asserts the body is not a
space member, then frees. -/
def Body.dtor (env : SpaceEnv) (b : Body) : CRes (List Nat) :=
  match b.ptr with
  | none => .ok []
  | some h => if env.bodyInSpace h then .assertViolation else .ok [h]

/-- Body of the second-variant Body move assignment when this and other
are distinct: the source asserts that the destination pointer is null
before taking the pointer from the source. -/
def Body.moveAssignBody (dst src : Body) : CRes (Body × Body × List Nat) :=
  match dst.ptr with
  | none => .ok (⟨src.ptr⟩, ⟨none⟩, [])
  | some _ => .assertViolation

/-- Wrapper around cpShape from the second earlier simple-struct variant
kept in the repository (part_003, second file). -/
structure Shape where
  ptr : Option Nat
deriving DecidableEq, Repr

/-- Destructor of the second-variant Shape: asserts the shape is not a
space member (cpShapeGetSpace returns null), then frees it with
cpShapeFree. -/
def Shape.dtor (env : SpaceEnv) (s : Shape) : CRes (List Nat) :=
  match s.ptr with
  | none => .ok []
  | some h => if env.shapeInSpace h then .assertViolation else .ok [h]

end V2

namespace Dispatch

/-- The flecs world state the collision begin callbacks interact with:
the set of live entity identities, and the user-data slot of each cpBody
handle (written by the body_on_set observer with the owning entity id).
The callbacks receive the world through the handler user-data pointer,
modelled as an Option on the World. -/
structure World where
  alive : List Nat
  userData : Nat → Nat

/-- A call the begin callback makes into the flecs world.  The
projectile handler runs target.add Collision (rel) on the resolved
entities. -/
inductive EcsOp where
| addCollision (target rel : Nat)
deriving DecidableEq, Repr

/-- Collision begin callback of the projectile_collision test (both
variant files): asserts the world pointer is non-null, resolves both
arbiter bodies to entity identities through cpBodyGetUserData, then
unconditionally adds a Collision pair to each side and returns true.
No liveness check of the resolved identities is made. -/
def beginFuncProjectile (data : Option World) (a b : Nat) :
    CRes (List EcsOp × Bool) :=
  match data with
  | none => .assertViolation
  | some w =>
    let proj := w.userData a
    let other := w.userData b
    .ok ([.addCollision proj other, .addCollision other proj], true)

/-- Collision begin callback of the indestructable_projectile test
(both variant files): same resolution, adds a Collision only to the
struck object, and returns false so the engine suppresses the physical
response.  Again no liveness check of the resolved identities. -/
def beginFuncIndestructable (data : Option World) (a b : Nat) :
    CRes (List EcsOp × Bool) :=
  match data with
  | none => .assertViolation
  | some w =>
    let proj := w.userData a
    let other := w.userData b
    .ok ([.addCollision other proj], false)

/-- A world with no live entity at all, whose body user-data slots hold
identities shifted by five. -/
def deadWorld : World := ⟨[], fun n => n + 5⟩

end Dispatch

namespace Lifecycle

/-- Calls made into the chipmunk2d engine by the observer hooks. -/
inductive EngineCall where
| setUserData (body val : Nat)
| addBody (body : Nat)
| removeBody (body : Nat)
| addShape (shape : Nat)
| removeShape (shape : Nat)
deriving DecidableEq, Repr

/-- The engine-side state the hooks mutate: the bodies and shapes that
are members of the singleton space, the user-data slot of each body,
and the trace of engine calls made so far. -/
structure EngineState where
  members : List Nat
  shapeMembers : List Nat
  userData : Nat → Nat
  trace : List EngineCall

/-- cpBodySetUserData: stores a value in the user-data slot of a body. -/
def cpBodySetUserData (st : EngineState) (body val : Nat) : EngineState :=
  { st with userData := Function.update st.userData body val,
            trace := st.trace ++ [.setUserData body val] }

/-- cpSpaceAddBody: inserts a body into the space. -/
def cpSpaceAddBody (st : EngineState) (body : Nat) : EngineState :=
  { st with members := body :: st.members,
            trace := st.trace ++ [.addBody body] }

/-- cpSpaceRemoveBody: removes a body from the space. -/
def cpSpaceRemoveBody (st : EngineState) (body : Nat) : EngineState :=
  { st with members := st.members.erase body,
            trace := st.trace ++ [.removeBody body] }

/-- cpSpaceAddShape: inserts a shape into the space. -/
def cpSpaceAddShape (st : EngineState) (shape : Nat) : EngineState :=
  { st with shapeMembers := shape :: st.shapeMembers,
            trace := st.trace ++ [.addShape shape] }

/-- cpSpaceRemoveShape: removes a shape from the space. -/
def cpSpaceRemoveShape (st : EngineState) (shape : Nat) : EngineState :=
  { st with shapeMembers := st.shapeMembers.erase shape,
            trace := st.trace ++ [.removeShape shape] }

/-- The body_on_set observer (identical in simple_struct_impl.cpp and
unique_ptr_impl.cpp): first writes the entity identity into the cpBody
user-data slot, then adds the cpBody to the singleton space, in that
order within a single hook invocation. -/
def bodyOnSet (st : EngineState) (entity body : Nat) : EngineState :=
  cpSpaceAddBody (cpBodySetUserData st body entity) body

/-- The body_on_remove observer: removes the cpBody from the space (the
entity argument of the hook is only logged by the source). -/
def bodyOnRemove (st : EngineState) (body : Nat) : EngineState :=
  cpSpaceRemoveBody st body

/-- The shape_on_set observer: adds the cpShape to the space. -/
def shapeOnSet (st : EngineState) (shape : Nat) : EngineState :=
  cpSpaceAddShape st shape

/-- The shape_on_remove observer: removes the cpShape from the space. -/
def shapeOnRemove (st : EngineState) (shape : Nat) : EngineState :=
  cpSpaceRemoveShape st shape

/-- Component lifecycle events that trigger the four observers. -/
inductive Event where
| attachBody (entity body : Nat)
| detachBody (entity body : Nat)
| attachShape (entity shape : Nat)
| detachShape (entity shape : Nat)
deriving DecidableEq, Repr

/-- Bridge-level system state: the engine state plus the component
ownership of each body handle maintained by the flecs store (which
entity currently holds the Body component wrapping that handle). -/
structure SysState where
  engine : EngineState
  owner : Nat → Option Nat

/-- One lifecycle event.  The preconditions encode invariant I3 of the
spec (one attach per component becoming present, detach of the matching
owner per component ceasing to be present): a Body attach requires the
handle to be currently unowned, a Body detach fires for the current
owner.  A violating event yields none. -/
def step (s : SysState) : Event → Option SysState
| .attachBody e b =>
    if s.owner b = none then
      some { engine := bodyOnSet s.engine e b,
             owner := Function.update s.owner b (some e) }
    else none
| .detachBody e b =>
    if s.owner b = some e then
      some { engine := bodyOnRemove s.engine b,
             owner := Function.update s.owner b none }
    else none
| .attachShape _ sh => some { s with engine := shapeOnSet s.engine sh }
| .detachShape _ sh => some { s with engine := shapeOnRemove s.engine sh }

/-- Engine state at simulation start: empty space, zeroed user data. -/
def initEngine : EngineState :=
  { members := [], shapeMembers := [], userData := fun _ => 0, trace := [] }

/-- System state at simulation start. -/
def initState : SysState :=
  { engine := initEngine, owner := fun _ => none }

/-- Runs a list of lifecycle events from a given state. -/
def runFrom : SysState → List Event → Option SysState
| s, [] => some s
| s, ev :: evs =>
  match step s ev with
  | none => none
  | some s2 => runFrom s2 evs

/-- Runs a list of lifecycle events from the initial state. -/
def run (evs : List Event) : Option SysState :=
  runFrom initState evs

/-- Identity round-trip invariant: every body handle that is a member of
the space has its user-data slot holding exactly the identity of the
entity that currently owns the Body component, and the membership list
has no duplicates. -/
def Inv (s : SysState) : Prop :=
  (∀ b ∈ s.engine.members, s.owner b = some (s.engine.userData b)) ∧
  s.engine.members.Nodup

/-- The state reached from the initial state by attaching a Body holding
handle 10 to entity 1. -/
def exampleState : SysState :=
  { engine := bodyOnSet initEngine 1 10,
    owner := Function.update initState.owner 10 (some 1) }

end Lifecycle

namespace ScenarioP7

/-- Modelled from the spec: the chipmunk2d simulation engine itself is a
vendored external collaborator (the spec places its integrator and
collision detection out of scope, interfaces only), so the per-step
physics of the indestructable_projectile test is modelled here from the
interface contracts of the spec with exact integer arithmetic.
Positions are stored in sixtieths of a world unit, so one fixed step of
1/60 second advances the projectile by exactly its integer velocity
value; velocities are stored in world units per second, so the value
(25, 0) of the claim is represented exactly.  This structure is the
scenario state: the projectile position and velocity and the positions
of the live object entities (the apples). -/
structure Scenario where
  arrowPos : Int × Int
  arrowVel : Int × Int
  apples : List (Int × Int)
deriving DecidableEq, Repr

/-- Modelled from the spec: overlap test between the projectile circle
shape (radius one, from cpCircleShapeNew(body, 1, ...)) and an object
box shape (one by one, from cpBoxShapeNew(body, 1, 1, 0), half extent
one half).  The shapes overlap when the center distance is below 3/2 of
a world unit, which is 90 sixtieths, on each axis (every object sits on
the x axis in the test setup).  A contact-begin event is reported when
the shapes overlap. -/
def touching (apple pos : Int × Int) : Bool :=
  (apple.1 - pos.1).natAbs < 90 && (apple.2 - pos.2).natAbs < 90

/-- Modelled from the spec: one frame of the scenario, covering the step
driver call (advance positions by velocity times the elapsed 1/60
second, i.e. by the velocity value in sixtieths) and the synchronous
collision dispatch during that call.  For each contact-begin the handler
runs; the boolean it returns is honored by the engine: only when it is
true does the engine apply its physical response to the projectile
velocity (resp stands for whatever impulse the engine would apply).
Struck objects receive a Collision component and the collision-handling
system destroys them in the same frame, after the step.  The objects are
static (infinite moment, zero velocity). -/
def frame (resp : Int × Int → Int × Int) (handlerRet : Bool)
    (s : Scenario) : Scenario :=
  let p : Int × Int := (s.arrowPos.1 + s.arrowVel.1, s.arrowPos.2 + s.arrowVel.2)
  let hits := s.apples.filter (fun a => touching a p)
  let v := if handlerRet then
             (if hits.isEmpty then s.arrowVel else resp s.arrowVel)
           else s.arrowVel
  { arrowPos := p, arrowVel := v,
    apples := s.apples.filter (fun a => !(touching a p)) }

/-- Modelled from the spec: the initial state of the
indestructable_projectile test: projectile at the origin with velocity
(25, 0) units per second, five object entities at x = 5, 10, 15, 20, 25
units (300, ..., 1500 sixtieths). -/
def initScenario : Scenario :=
  { arrowPos := (0, 0), arrowVel := (25, 0),
    apples := [(300, 0), (600, 0), (900, 0), (1200, 0), (1500, 0)] }

/-- Modelled from the spec: n frames of 1/60 second each, with the
contact handler returning the suppress-response boolean false (the
return value of the indestructable_projectile begin callback, see
Dispatch.beginFuncIndestructable). -/
def runP7 (resp : Int × Int → Int × Int) (n : Nat) : Scenario :=
  (frame resp false)^[n] initScenario

end ScenarioP7

/-!
Theorems settling the claims.
-/

/-- C1, counterexample: the unique_ptr variant BodyDeleter, run on a
non-null body handle that is still a member of the space (environment
envAllMembers marks every handle as a member), completes normally and
frees the handle instead of raising an assertion violation.  The claim,
which says every Body or Shape destructor or deleter in every variant
raises a fatal assertion whenever the handle is still a space member, is
therefore false on this concrete input. -/
theorem claim1_counterexample :
    envAllMembers.bodyInSpace 0 = true ∧
    UniquePtr.bodyDeleter envAllMembers (some 0) = .ok [0] ∧
    UniquePtr.bodyDeleter envAllMembers (some 0) ≠ .assertViolation := by
  refine ⟨rfl, rfl, ?_⟩
  decide

/-- C1 (amended): every Body or Shape wrapper destructor or deleter, in
every variant, releases the handle exactly once when it is non-null.
All of them except one raise a fatal assertion violation when the
handle is still a member of the space: the simple-struct Body and Shape
destructors, the unique_ptr Shape destructor, and the Body and Shape
destructors of both earlier variants.  The single exception is the
unique_ptr BodyDeleter, which frees the handle unconditionally without
the membership assertion.  An empty wrapper destructor releases
nothing. -/
theorem claim1_amended (env : SpaceEnv) (h : Nat) :
    SimpleStruct.Body.dtor env ⟨some h⟩
      = (if env.bodyInSpace h then .assertViolation else .ok [h]) ∧
    SimpleStruct.Shape.dtor env ⟨some h⟩
      = (if env.shapeInSpace h then .assertViolation else .ok [h]) ∧
    UniquePtr.Shape.dtor env ⟨some h⟩
      = (if env.shapeInSpace h then .assertViolation else .ok [h]) ∧
    V1.Body.dtor env ⟨some h⟩
      = (if env.bodyInSpace h then .assertViolation else .ok [h]) ∧
    V1.Shape.dtor env ⟨some h⟩
      = (if env.shapeInSpace h then .assertViolation else .ok [h]) ∧
    V2.Body.dtor env ⟨some h⟩
      = (if env.bodyInSpace h then .assertViolation else .ok [h]) ∧
    V2.Shape.dtor env ⟨some h⟩
      = (if env.shapeInSpace h then .assertViolation else .ok [h]) ∧
    UniquePtr.bodyDeleter env (some h) = .ok [h] ∧
    SimpleStruct.Body.dtor env ⟨none⟩ = .ok [] ∧
    UniquePtr.bodyDeleter env none = .ok [] :=
  ⟨rfl, rfl, rfl, rfl, rfl, rfl, rfl, rfl, rfl, rfl⟩

/-- C2, counterexample: in a world with no live entity at all, the
projectile collision begin callback still resolves the user-data of both
bodies to entity identities (7 and 8, neither alive) and adds Collision
components to both of them, instead of skipping the stale sides.  The
claim that the dispatcher checks liveness and skips a dead side is
therefore false on this concrete input. -/
theorem claim2_counterexample :
    7 ∉ Dispatch.deadWorld.alive ∧ 8 ∉ Dispatch.deadWorld.alive ∧
    Dispatch.beginFuncProjectile (some Dispatch.deadWorld) 2 3
      = .ok ([.addCollision 7 8, .addCollision 8 7], true) := by
  refine ⟨?_, ?_, rfl⟩ <;> decide

/-- C2 (amended): the collision begin callbacks resolve both bodies to
entity identities through the user-data slot and process them
unconditionally: the projectile_collision callback adds a Collision pair
to each side and returns true, the indestructable_projectile callback
adds a Collision to the struck object and returns false.  Neither
performs a liveness check on the resolved identities; the only defensive
check is the fatal assertion that the world pointer stored in the
handler user-data is non-null. -/
theorem claim2_amended (w : Dispatch.World) (a b : Nat) :
    Dispatch.beginFuncProjectile (some w) a b
      = .ok ([.addCollision (w.userData a) (w.userData b),
              .addCollision (w.userData b) (w.userData a)], true) ∧
    Dispatch.beginFuncIndestructable (some w) a b
      = .ok ([.addCollision (w.userData b) (w.userData a)], false) ∧
    Dispatch.beginFuncProjectile none a b = .assertViolation ∧
    Dispatch.beginFuncIndestructable none a b = .assertViolation :=
  ⟨rfl, rfl, rfl, rfl⟩

/-- C3, counterexample: move-constructing from a simple-struct Body
holding handle 5 leaves the source with a null pointer, but converting
that moved-from wrapper to its raw-handle form through the implicit
conversion operator raises a fatal assertion violation (the operator
asserts the pointer is non-null) rather than being well-defined and
yielding the null value the claim describes. -/
theorem claim3_counterexample :
    SimpleStruct.Body.moveCtor envAllMembers ⟨some 5⟩
      = .ok (⟨some 5⟩, ⟨none⟩, []) ∧
    SimpleStruct.Body.toRaw ⟨none⟩ = .assertViolation := by
  exact ⟨rfl, rfl⟩

/-- C3 (amended): after move-constructing or move-assigning a
simple-struct wrapper holding handle h into an empty destination, the
destination holds exactly h, the source holds no handle (its stored
pointer field is null) and the source destructor is a no-op releasing
nothing; however the implicit raw-handle conversion of the moved-from
wrapper raises a fatal assertion on the null pointer instead of
returning a null value. -/
theorem claim3_amended (env : SpaceEnv) (p : Option Nat) (h : Nat) :
    SimpleStruct.Body.moveCtor env ⟨some h⟩ = .ok (⟨some h⟩, ⟨none⟩, []) ∧
    SimpleStruct.Body.moveAssignBody env ⟨none⟩ ⟨p⟩ = .ok (⟨p⟩, ⟨none⟩, []) ∧
    SimpleStruct.Body.dtor env ⟨none⟩ = .ok [] ∧
    SimpleStruct.Body.toRaw ⟨none⟩ = .assertViolation ∧
    SimpleStruct.Shape.moveCtor env ⟨some h⟩ = .ok (⟨some h⟩, ⟨none⟩, []) ∧
    SimpleStruct.Shape.dtor env ⟨none⟩ = .ok [] ∧
    SimpleStruct.Shape.toRaw ⟨none⟩ = .assertViolation :=
  ⟨rfl, rfl, rfl, rfl, rfl, rfl, rfl⟩

/-- C4, counterexample: in the first earlier simple-struct variant, move
assignment into a Body wrapper that still holds live handle 1 overwrites
the pointer with the pointer of the source (handle 2) while freeing
nothing (the freed list is empty) and while no assertion can fire (the
operation is a total plain-value function).  The old handle is silently
dropped, so the claim that every move-assignment releases the old handle
or raises a fatal assertion is false on this concrete input. -/
theorem claim4_counterexample :
    V1.Body.moveAssignBody ⟨some 1⟩ ⟨some 2⟩ = (⟨some 2⟩, ⟨none⟩, []) := by
  exact rfl

/-- C4 (amended): move assignment into a Body or Shape wrapper that
still holds a live handle releases the old handle first (after the
membership assertion) in the simple-struct variant, and raises a fatal
assertion in the second earlier variant; the first earlier variant
instead silently drops the old handle without releasing it. -/
theorem claim4_amended (env : SpaceEnv) (h : Nat) (p : Option Nat) :
    SimpleStruct.Body.moveAssignBody env ⟨some h⟩ ⟨p⟩
      = (if env.bodyInSpace h then .assertViolation
         else .ok (⟨p⟩, ⟨none⟩, [h])) ∧
    SimpleStruct.Shape.moveAssignBody env ⟨some h⟩ ⟨p⟩
      = (if env.shapeInSpace h then .assertViolation
         else .ok (⟨p⟩, ⟨none⟩, [h])) ∧
    V2.Body.moveAssignBody ⟨some h⟩ ⟨p⟩ = .assertViolation ∧
    V1.Body.moveAssignBody ⟨some h⟩ ⟨p⟩ = (⟨p⟩, ⟨none⟩, []) :=
  ⟨rfl, rfl, rfl, rfl⟩

/-- C7, counterexample: constructing a simple-struct Body wrapper from a
null raw pointer succeeds with no fatal error: the constructor is a
total function that stores the null pointer, and the resulting wrapper
even runs its destructor normally (releasing nothing).  The claim that a
null handle is propagated as a fatal error at construction time for
every wrapper construction is therefore false on this concrete input. -/
theorem claim7_counterexample :
    SimpleStruct.Body.fromRaw none = ⟨none⟩ ∧
    SimpleStruct.Body.dtor envAllMembers (SimpleStruct.Body.fromRaw none)
      = .ok [] := by
  exact ⟨rfl, rfl⟩

/-- C7 (amended): a null result of the foreign space allocation is
propagated as a fatal assertion by the module constructor in both
variant files, and a live space allocation is wrapped as is; the Body
and Shape wrapper constructors, by contrast, store a raw pointer
unchecked (a null one included), and the fatal assertion for a null
handle fires only at first use through the implicit raw-handle
conversion. -/
theorem claim7_amended (p : Option Nat) (h : Nat) :
    SimpleStruct.moduleSpaceInit none = .assertViolation ∧
    SimpleStruct.moduleSpaceInit (some h) = .ok h ∧
    UniquePtr.moduleSpaceInit none = .assertViolation ∧
    UniquePtr.moduleSpaceInit (some h) = .ok h ∧
    SimpleStruct.Body.fromRaw p = ⟨p⟩ ∧
    SimpleStruct.Shape.fromRaw p = ⟨p⟩ ∧
    SimpleStruct.Body.toRaw (SimpleStruct.Body.fromRaw none)
      = .assertViolation :=
  ⟨rfl, rfl, rfl, rfl, rfl, rfl, rfl⟩

/-- C9: move-assigning a simple-struct wrapper to itself is a no-op for
all three wrapper kinds: the aliasing guard makes the operator body
skip, so the heap is unchanged, nothing is freed, and no assertion
fires, whatever the wrapper currently holds. -/
theorem claim9_self_move_assign (env : SpaceEnv) (hb : Nat → SimpleStruct.Body)
    (hsp : Nat → SimpleStruct.Space) (hsh : Nat → SimpleStruct.Shape)
    (i : Nat) :
    SimpleStruct.Body.opMoveAssign env hb i i = .ok (hb, []) ∧
    SimpleStruct.Space.opMoveAssign hsp i i = .ok hsp ∧
    SimpleStruct.Shape.opMoveAssign env hsh i i = .ok (hsh, []) := by
  refine ⟨?_, ?_, ?_⟩ <;>
    simp [SimpleStruct.Body.opMoveAssign, SimpleStruct.Space.opMoveAssign,
      SimpleStruct.Shape.opMoveAssign]

/-- C10: in the simple-struct variant, move assignment into a Space
wrapper that already holds a live handle raises a fatal assertion
without releasing the old handle, whereas the Body and Shape move
assignments of the same variant first release the old handle (after the
space-membership assertion) before taking ownership of the new one. -/
theorem claim10_space_assign_policy (env : SpaceEnv) (h : Nat)
    (p : Option Nat) :
    SimpleStruct.Space.moveAssignBody ⟨some h⟩ ⟨p⟩ = .assertViolation ∧
    SimpleStruct.Body.moveAssignBody env ⟨some h⟩ ⟨p⟩
      = (if env.bodyInSpace h then .assertViolation
         else .ok (⟨p⟩, ⟨none⟩, [h])) ∧
    SimpleStruct.Shape.moveAssignBody env ⟨some h⟩ ⟨p⟩
      = (if env.shapeInSpace h then .assertViolation
         else .ok (⟨p⟩, ⟨none⟩, [h])) :=
  ⟨rfl, rfl, rfl⟩

/-- C5: the body_on_set observer, on a Body attach event, performs
exactly two engine calls in one invocation, in this order: first
cpBodySetUserData writing the owning entity identity into the body
user-data slot, then cpSpaceAddBody inserting the body into the
singleton space.  Afterwards the user-data slot holds the entity
identity and the body is a space member. -/
theorem claim5_on_set_order (st : Lifecycle.EngineState) (e b : Nat) :
    (Lifecycle.bodyOnSet st e b).trace
      = st.trace ++ [.setUserData b e, .addBody b] ∧
    (Lifecycle.bodyOnSet st e b).userData b = e ∧
    b ∈ (Lifecycle.bodyOnSet st e b).members := by
  refine ⟨?_, ?_, ?_⟩ <;>
    simp [Lifecycle.bodyOnSet, Lifecycle.cpSpaceAddBody,
      Lifecycle.cpBodySetUserData]

/-- The identity round-trip invariant holds in the initial state: the
space is empty. -/
theorem Lifecycle.inv_init : Lifecycle.Inv Lifecycle.initState := by
  constructor
  · intro b hb
    simp [Lifecycle.initState, Lifecycle.initEngine] at hb
  · simp [Lifecycle.initState, Lifecycle.initEngine]

/-- One lifecycle event preserves the identity round-trip invariant. -/
theorem Lifecycle.inv_step {s s2 : Lifecycle.SysState} {ev : Lifecycle.Event}
    (hi : Lifecycle.Inv s) (hs : Lifecycle.step s ev = some s2) :
    Lifecycle.Inv s2 := by
  obtain ⟨h1, h2⟩ := hi
  cases ev with
  | attachBody e b =>
    simp only [Lifecycle.step] at hs
    split at hs
    case isFalse => cases hs
    case isTrue hguard =>
      simp only [Option.some.injEq] at hs
      subst hs
      have hbnotmem : b ∉ s.engine.members := by
        intro hmem
        have hcur := h1 b hmem
        rw [hguard] at hcur
        cases hcur
      constructor
      · intro b2 hb2
        simp only [Lifecycle.bodyOnSet, Lifecycle.cpSpaceAddBody,
          Lifecycle.cpBodySetUserData, List.mem_cons] at hb2 ⊢
        rcases hb2 with rfl | hmem2
        · simp
        · have hne : b2 ≠ b := fun hEq => hbnotmem (hEq ▸ hmem2)
          simp only [Function.update_noteq hne]
          exact h1 b2 hmem2
      · simp only [Lifecycle.bodyOnSet, Lifecycle.cpSpaceAddBody,
          Lifecycle.cpBodySetUserData]
        exact List.nodup_cons.mpr ⟨hbnotmem, h2⟩
  | detachBody e b =>
    simp only [Lifecycle.step] at hs
    split at hs
    case isFalse => cases hs
    case isTrue hguard =>
      simp only [Option.some.injEq] at hs
      subst hs
      constructor
      · intro b2 hb2
        simp only [Lifecycle.bodyOnRemove, Lifecycle.cpSpaceRemoveBody] at hb2 ⊢
        obtain ⟨hne, hmem2⟩ := (List.Nodup.mem_erase_iff h2).mp hb2
        simp only [Function.update_noteq hne]
        exact h1 b2 hmem2
      · simp only [Lifecycle.bodyOnRemove, Lifecycle.cpSpaceRemoveBody]
        exact h2.erase b
  | attachShape e sh =>
    simp only [Lifecycle.step, Option.some.injEq] at hs
    subst hs
    exact ⟨h1, h2⟩
  | detachShape e sh =>
    simp only [Lifecycle.step, Option.some.injEq] at hs
    subst hs
    exact ⟨h1, h2⟩

/-- Running any list of lifecycle events preserves the invariant. -/
theorem Lifecycle.inv_runFrom : ∀ (evs : List Lifecycle.Event)
    (s s2 : Lifecycle.SysState), Lifecycle.Inv s →
    Lifecycle.runFrom s evs = some s2 → Lifecycle.Inv s2
| [], s, s2, hi, h => by
  simp only [Lifecycle.runFrom, Option.some.injEq] at h
  exact h ▸ hi
| ev :: evs, s, s2, hi, h => by
  simp only [Lifecycle.runFrom] at h
  cases hstep : Lifecycle.step s ev with
  | none => rw [hstep] at h; cases h
  | some s1 =>
    rw [hstep] at h
    exact Lifecycle.inv_runFrom evs s1 s2 (Lifecycle.inv_step hi hstep) h

/-- C6: identity round-trip.  For every system state reachable from the
initial state by a legal sequence of component lifecycle events, every
body handle that is a member of the singleton space has its foreign
user-data slot holding exactly the identity of the entity that currently
owns that Body component: resolving the slot in a collision callback
recovers the identity stored at attach time. -/
theorem claim6_identity_roundtrip (evs : List Lifecycle.Event)
    (s : Lifecycle.SysState) (hrun : Lifecycle.run evs = some s)
    (b : Nat) (hb : b ∈ s.engine.members) :
    s.owner b = some (s.engine.userData b) := by
  have hinv := Lifecycle.inv_runFrom evs Lifecycle.initState s
    Lifecycle.inv_init hrun
  exact hinv.1 b hb

/-- C6, witness: attaching a Body with handle 10 to entity 1 reaches a
concrete state in which body 10 is a space member and its user-data
slot resolves to entity 1, the current owner. -/
theorem claim6_witness :
    Lifecycle.run [Lifecycle.Event.attachBody 1 10]
      = some Lifecycle.exampleState ∧
    Lifecycle.exampleState.owner 10
      = some (Lifecycle.exampleState.engine.userData 10) := by
  refine ⟨rfl, claim6_identity_roundtrip [Lifecycle.Event.attachBody 1 10]
    Lifecycle.exampleState rfl 10 ?_⟩
  simp [Lifecycle.exampleState, Lifecycle.bodyOnSet, Lifecycle.cpSpaceAddBody,
    Lifecycle.cpBodySetUserData, Lifecycle.initEngine]

/-- C8: response suppression scenario.  Whatever physical response resp
the engine would apply to a colliding projectile, because the contact
begin handler of the scenario returns the suppress-response boolean
false (the return value proved for Dispatch.beginFuncIndestructable in
the C2 theorem), after 60 steps of 1/60 second each the projectile
started at (0, 0) with velocity (25, 0) still has exactly velocity
(25, 0), and all 5 object entities placed at x = 5, 10, 15, 20, 25 have
been struck and destroyed by the collision-handling system. -/
theorem claim8_suppressed_response (resp : Int × Int → Int × Int) :
    (ScenarioP7.runP7 resp 60).apples = [] ∧
    (ScenarioP7.runP7 resp 60).arrowVel = (25, 0) := by
  have hfr : ScenarioP7.frame resp false
      = ScenarioP7.frame (fun v => v) false := by
    funext s
    rfl
  rw [ScenarioP7.runP7, hfr]
  decide
